import Mathlib

/-!
Shallow embedding of `src/cmd/agent/dist/utils/subprocess_output.py`.

That file defines a single adapter function

  `def get_subprocess_output(command, log, raise_on_empty_output=True)`

which normalizes `command` into an argument list `cmd_args` (lines 18-26)
and delegates to the external primitive `_util.get_subprocess_output`
(imported as `subprocess_output`, called on line 28).

Python runtime values are modelled by `PyVal`, keeping exactly the facets
the function inspects: whether the value is a `basestring` instance
(line 19), whether its type defines `__iter__` (the test
`hasattr(type(command), '__iter__')` on line 22), whether the instance
itself carries an `__iter__` attribute or supports the classic
`__getitem__` iteration protocol (neither is consulted by the code), and
the elements iteration would yield, in order.

The external primitive is an oracle parameter `exec` of type
`List PyVal → Bool → Except ε α`: the adapter is polymorphic over the
output type and the error type of the primitive, so every theorem about
delegation quantifies over all possible primitives.

Note on faithfulness: line 21 of the source reads `_args.append(arg)`
where `_args` is an undefined name, so the string branch raises a Python
`NameError` on its first loop iteration whenever `command.split()` is
non-empty. The embedding reproduces this behaviour.
-/

namespace Subproc

/-- A Python runtime value, restricted to the facets `get_subprocess_output`
inspects. `str s` is a `basestring` instance holding `s`; `obj t i g es` is
any other object, where `t` says whether its type defines `__iter__`, `i`
whether the instance itself carries an `__iter__` attribute, `g` whether it
supports the classic `__getitem__` iteration protocol, and `es` lists the
elements iteration would yield, in order. The integer `5` is
`obj false false false []`; the list `[a, b]` is
`obj true false true [a, b]`. -/
inductive PyVal where
  | str (s : String)
  | obj (typeHasIter instHasIter hasGetItem : Bool) (elems : List PyVal)

/-- Errors the adapter itself can raise: the `NameError` caused by the
undefined name `_args` on line 21, and the `TypeError` raised on line 26. -/
inductive PyErr where
  | nameError (msg : String)
  | typeError (msg : String)

/-- Whitespace characters recognised by Python `str.split()` when called
with no argument: space, tab, newline, carriage return, vertical tab and
form feed. -/
def isPyWS (c : Char) : Bool :=
  c = ' ' || c = '\t' || c = '\n' || c = '\r' || c = '\x0b' || c = '\x0c'

/-- Worker for `pySplit`: walk the characters, accumulating the current
token reversed in `cur`; runs of whitespace separate tokens and no empty
token is ever produced. -/
def splitAux : List Char → List Char → List String
  | [], cur => if cur.isEmpty then [] else [String.mk cur.reverse]
  | c :: rest, cur =>
      if isPyWS c then
        if cur.isEmpty then splitAux rest []
        else String.mk cur.reverse :: splitAux rest []
      else splitAux rest (c :: cur)

/-- Python `s.split()` with no separator argument: split on runs of
whitespace, discarding leading and trailing whitespace. -/
def pySplit (s : String) : List String :=
  splitAux s.toList []

/-- The `for arg in xs: cmd_args.append(arg)` loop shape of lines 20-21 and
23-24: append each element of `xs` to the accumulator, one at a time, in
order. -/
def appendLoop (cmd_args : List PyVal) (xs : List PyVal) : List PyVal :=
  xs.foldl (fun acc arg => acc ++ [arg]) cmd_args

/-- Lines 18-26 of `get_subprocess_output`: build `cmd_args` from `command`
or raise. A `basestring` with at least one whitespace-separated token hits
the undefined name `_args` on line 21 and raises `NameError` on the first
loop iteration; a `basestring` whose `split()` is empty never runs the loop
body, leaving `cmd_args` as the fresh empty list of line 18. A non-string
whose type defines `__iter__` is iterated into `cmd_args` on lines 23-24.
Anything else raises the `TypeError` of line 26. -/
def normalize (command : PyVal) : Except PyErr (List PyVal) :=
  match command with
  | .str s =>
      match pySplit s with
      | [] => .ok []
      | _ :: _ => .error (.nameError "global name _args is not defined")
  | .obj typeHasIter _ _ elems =>
      if typeHasIter then .ok (appendLoop [] elems)
      else .error (.typeError "command must be a sequence or string")

/-- Lift the external primitive result into the adapter result type: a
success is returned unchanged and an error propagates unchanged, tagged
`Sum.inr` only to keep it apart from the adapter local errors. -/
def liftExec {ε α : Type} : Except ε α → Except (PyErr ⊕ ε) α
  | .ok a => .ok a
  | .error e => .error (Sum.inr e)

/-- The whole adapter, lines 12-28 of the source. `exec` models the
external primitive `_util.get_subprocess_output`, opaque except for its
call contract; `log` is the `log` parameter, which the body never reads;
`raise_on_empty_output` is forwarded verbatim to `exec` on line 28 (in the
Python source it defaults to `True` when omitted). -/
def get_subprocess_output {L ε α : Type}
    (exec : List PyVal → Bool → Except ε α)
    (command : PyVal) (log : L) (raise_on_empty_output : Bool) :
    Except (PyErr ⊕ ε) α :=
  match normalize command with
  | .error e => .error (Sum.inl e)
  | .ok cmd_args => liftExec (exec cmd_args raise_on_empty_output)

/-- A value Python can iterate at all: its type defines `__iter__`, or the
instance carries `__iter__`, or it supports the classic `__getitem__`
protocol. Strings are iterable. -/
def iterableValue : PyVal → Bool
  | .str _ => true
  | .obj t i g _ => t || i || g

/-- Modelled from the spec: the intended normalization of section 4.1
(behaviour 1 and 2), for comparison with the source `normalize` in the
string branch. A string splits on whitespace into its tokens, in order; a
value whose type defines `__iter__` yields its elements, in order; anything
else is the `TypeError`. -/
def normalizeSpec : PyVal → Except PyErr (List PyVal)
  | .str s => .ok ((pySplit s).map PyVal.str)
  | .obj t _ _ elems =>
      if t then .ok elems
      else .error (.typeError "command must be a sequence or string")

/-- The append loop starting from `acc` contributes exactly its input list:
the built argument list is `acc` followed by the iterated elements, so the
contribution is independent of any previous accumulator content. -/
theorem appendLoop_eq (acc xs : List PyVal) : appendLoop acc xs = acc ++ xs := by
  induction xs generalizing acc with
  | nil => simp [appendLoop]
  | cons x xs ih =>
      show appendLoop (acc ++ [x]) xs = acc ++ (x :: xs)
      rw [ih]
      simp

/-- External primitive used by witnesses: records the argument list and the
flag it was called with. -/
def execRecord (args : List PyVal) (flag : Bool) :
    Except String (List PyVal × Bool) :=
  Except.ok (args, flag)

/-- External primitive used by witnesses: captured output is empty, so it
raises the empty-output error exactly when the flag asks for that and
otherwise returns the empty output. -/
def execEmptyOutput (args : List PyVal) (flag : Bool) : Except String String :=
  if flag then Except.error "SubprocessOutputEmptyError" else Except.ok ""

/-- C1: the spec says a string command is split on whitespace into tokens,
collected into the argument list and delegated. The code instead appends
to the undefined name `_args` (line 21) and raises `NameError` on the
first token, never delegating: at the spec example `"ls -la /tmp"` the
adapter errors for every external primitive, every logger and both flag
values, while the spec-intended normalization yields the split tokens. -/
theorem C1_string_split_code_bug {L ε α : Type}
    (exec : List PyVal → Bool → Except ε α) (log : L) (b : Bool) :
    get_subprocess_output exec (PyVal.str "ls -la /tmp") log b =
      Except.error (Sum.inl (PyErr.nameError "global name _args is not defined"))
    ∧ normalizeSpec (PyVal.str "ls -la /tmp") =
      Except.ok [PyVal.str "ls", PyVal.str "-la", PyVal.str "/tmp"] :=
  ⟨rfl, rfl⟩

/-- C2: a non-string sequence command whose type defines `__iter__` is
iterated in order and each element appended untransformed, so the argument
list delegated to the external primitive is exactly the input sequence,
element for element, with no trimming, escaping or validation. -/
theorem C2_sequence_passthrough {L ε α : Type}
    (exec : List PyVal → Bool → Except ε α) (log : L) (b i g : Bool)
    (tokens : List String) :
    normalize (PyVal.obj true i g (tokens.map PyVal.str)) =
      Except.ok (tokens.map PyVal.str)
    ∧ get_subprocess_output exec (PyVal.obj true i g (tokens.map PyVal.str))
        log b = liftExec (exec (tokens.map PyVal.str) b) := by
  have hn : normalize (PyVal.obj true i g (tokens.map PyVal.str)) =
      Except.ok (tokens.map PyVal.str) := by
    simp [normalize, appendLoop_eq]
  exact ⟨hn, by simp [get_subprocess_output, hn]⟩

/-- C3: a command that is neither a string nor a value whose type defines
`__iter__` — such as the integer 5, modelled as a non-iterable object —
raises `TypeError` with the message of line 26; the result is the same for
every external primitive, so the primitive is never invoked. -/
theorem C3_type_error_no_delegation {L ε α : Type}
    (exec : List PyVal → Bool → Except ε α) (log : L) (b : Bool)
    (es : List PyVal) :
    get_subprocess_output exec (PyVal.obj false false false es) log b =
      Except.error
        (Sum.inl (PyErr.typeError "command must be a sequence or string")) :=
  rfl

/-- C4: a string command that is empty or whitespace-only splits into no
tokens, the loop body of line 21 never runs, and the adapter delegates the
fresh empty argument list to the external primitive without raising. -/
theorem C4_empty_string {L ε α : Type}
    (exec : List PyVal → Bool → Except ε α) (log : L) (b : Bool)
    (s : String) (h : pySplit s = []) :
    normalize (PyVal.str s) = Except.ok []
    ∧ get_subprocess_output exec (PyVal.str s) log b = liftExec (exec [] b) := by
  have hn : normalize (PyVal.str s) = Except.ok [] := by
    simp only [normalize, h]
  exact ⟨hn, by simp [get_subprocess_output, hn]⟩

/-- C4 witness: the whitespace-only string of two spaces yields the empty
argument list and delegates it to the recording primitive. -/
theorem C4_empty_string_witness :
    normalize (PyVal.str "  ") = Except.ok []
    ∧ get_subprocess_output execRecord (PyVal.str "  ") (0 : Nat) true =
      liftExec (execRecord [] true) :=
  C4_empty_string execRecord (0 : Nat) true "  " rfl

/-- C5: the spec says every accepted command is delegated exactly once with
the normalized argument list and the forwarded flag. A string command with
at least one token passes the shape test of line 19 yet raises `NameError`
from the undefined `_args` before any delegation: at `"echo hi"` the
adapter errors for every external primitive, every logger and both flag
values, so the primitive is never called. -/
theorem C5_delegation_code_bug {L ε α : Type}
    (exec : List PyVal → Bool → Except ε α) (log : L) (b : Bool) :
    get_subprocess_output exec (PyVal.str "echo hi") log b =
      Except.error
        (Sum.inl (PyErr.nameError "global name _args is not defined")) :=
  rfl

/-- C6: whenever normalization reaches delegation, an error of the external
primitive propagates unchanged — no wrapping into a local error, no
suppression, no retry — and a successful result, including empty output
when `raise_on_empty_output` is false, is returned unchanged. -/
theorem C6_propagation {L ε α : Type}
    (exec : List PyVal → Bool → Except ε α) (log : L) (b : Bool)
    (cmd : PyVal) (args : List PyVal) (h : normalize cmd = Except.ok args) :
    (∀ e : ε, exec args b = Except.error e →
      get_subprocess_output exec cmd log b = Except.error (Sum.inr e))
    ∧ (∀ out : α, exec args b = Except.ok out →
      get_subprocess_output exec cmd log b = Except.ok out) := by
  constructor
  · intro e he
    simp [get_subprocess_output, h, he, liftExec]
  · intro out ho
    simp [get_subprocess_output, h, ho, liftExec]

/-- C6 witness: for the sequence command holding the single token `echo`,
the empty-output error of the primitive propagates unchanged when the flag
is true, and the empty output is returned unchanged when it is false. -/
theorem C6_propagation_witness :
    get_subprocess_output execEmptyOutput
        (PyVal.obj true false false [PyVal.str "echo"]) (0 : Nat) true =
      Except.error (Sum.inr "SubprocessOutputEmptyError")
    ∧ get_subprocess_output execEmptyOutput
        (PyVal.obj true false false [PyVal.str "echo"]) (0 : Nat) false =
      Except.ok "" :=
  ⟨(C6_propagation execEmptyOutput (0 : Nat) true
      (PyVal.obj true false false [PyVal.str "echo"]) [PyVal.str "echo"]
      rfl).1 "SubprocessOutputEmptyError" rfl,
   (C6_propagation execEmptyOutput (0 : Nat) false
      (PyVal.obj true false false [PyVal.str "echo"]) [PyVal.str "echo"]
      rfl).2 "" rfl⟩

/-- C7: the `log` parameter is never read by the adapter body: two calls
that differ only in the logger value produce identical results, for every
command, every external primitive and both flag values. -/
theorem C7_logger_noninterference {L ε α : Type}
    (exec : List PyVal → Bool → Except ε α) (cmd : PyVal) (b : Bool)
    (log1 log2 : L) :
    get_subprocess_output exec cmd log1 b =
      get_subprocess_output exec cmd log2 b :=
  rfl

/-- C8: normalization is deterministic and the `cmd_args` accumulator is
the fresh empty list of line 18 on every invocation, so two calls of the
adapter on the same command value build identical argument lists. -/
theorem C8_idempotent (cmd : PyVal) (a1 a2 : List PyVal)
    (h1 : normalize cmd = Except.ok a1) (h2 : normalize cmd = Except.ok a2) :
    a1 = a2 :=
  Except.ok.inj (h1.symm.trans h2)

/-- C8 witness: two invocations on the one-element sequence command build
the same argument list. -/
theorem C8_idempotent_witness :
    normalize (PyVal.obj true false false [PyVal.str "ls"]) =
      Except.ok [PyVal.str "ls"]
    ∧ ([PyVal.str "ls"] : List PyVal) = [PyVal.str "ls"] :=
  ⟨rfl, C8_idempotent (PyVal.obj true false false [PyVal.str "ls"])
    [PyVal.str "ls"] [PyVal.str "ls"] rfl rfl⟩

/-- C9: the iterability test `hasattr(type(command), '__iter__')` of
line 22 inspects the type only: a non-string value that is iterable through
an instance `__iter__` attribute or through the classic `__getitem__`
protocol, but whose type lacks `__iter__`, is still rejected with the
`TypeError`, for every external primitive — so the primitive is never
invoked on it. -/
theorem C9_type_based_iter_check {L ε α : Type}
    (exec : List PyVal → Bool → Except ε α) (log : L) (b : Bool)
    (i g : Bool) (es : List PyVal) (h : i = true ∨ g = true) :
    iterableValue (PyVal.obj false i g es) = true
    ∧ get_subprocess_output exec (PyVal.obj false i g es) log b =
      Except.error
        (Sum.inl (PyErr.typeError "command must be a sequence or string")) := by
  constructor
  · rcases h with h | h <;> simp [iterableValue, h]
  · rfl

/-- C9 witness: a classic sequence — only `__getitem__`, type without
`__iter__` — holding one element is iterable yet rejected with the
`TypeError`. -/
theorem C9_type_based_iter_check_witness :
    iterableValue (PyVal.obj false false true [PyVal.str "ls"]) = true
    ∧ get_subprocess_output execRecord
        (PyVal.obj false false true [PyVal.str "ls"]) (0 : Nat) true =
      Except.error
        (Sum.inl (PyErr.typeError "command must be a sequence or string")) :=
  C9_type_based_iter_check execRecord (0 : Nat) true false true
    [PyVal.str "ls"] (Or.inr rfl)

/-- C10: any non-string whose type defines `__iter__` passes the shape
check, whatever shape it otherwise has: the elements its iteration yields —
strings or not — are appended to the argument list with no element-type
check, and the resulting list is delegated in iteration order. -/
theorem C10_any_iterable_accepted {L ε α : Type}
    (exec : List PyVal → Bool → Except ε α) (log : L) (b i g : Bool)
    (elems : List PyVal) :
    normalize (PyVal.obj true i g elems) = Except.ok elems
    ∧ get_subprocess_output exec (PyVal.obj true i g elems) log b =
      liftExec (exec elems b) := by
  have hn : normalize (PyVal.obj true i g elems) = Except.ok elems := by
    simp [normalize, appendLoop_eq]
  exact ⟨hn, by simp [get_subprocess_output, hn]⟩

end Subproc
